import Mathlib

/-!
Shallow embedding of the rust-vulkan resource/frame-lifecycle layer
(crates `vulkan_renderer` and `sample`) and proofs about it.

Machine integers are modelled as `Nat` with explicit `% 2 ^ 64` where u64
overflow matters.  The bitwise complement `!x` of a `u64` value `x < 2 ^ 64`
is modelled as `(2 ^ 64 - 1) - x`, which agrees with the two's-complement
bit pattern.  Fallible Vulkan calls are modelled with `Option`: `none`
stands for the panic / fatal-error outcome.
-/

/-- `2 ^ 64`, the modulus of `u64` arithmetic. -/
def U64_MOD : Nat := 2 ^ 64

/-- Bitwise complement of a `u64` value (`!x` in Rust): for `x < 2 ^ 64`
flipping all 64 bits yields `(2 ^ 64 - 1) - x`. -/
def u64_not (x : Nat) : Nat := (U64_MOD - 1) - x

/-- `pad_uniform_buffer_size` from `src/sample/src/utils.rs` (the copy in
`src/vulkan_renderer/src/utils.rs` has the same body, it merely reads
`min_uniform_buffer_offset_alignment` off the device first):

```rust
let mut aligned_size = size as u64;
if min_uniform_alignment > 0 {
    aligned_size = (aligned_size + min_uniform_alignment - 1) & !(min_uniform_alignment - 1);
}
aligned_size
```
-/
def pad_uniform_buffer_size (size min_uniform_alignment : Nat) : Nat :=
  let aligned_size := size
  if min_uniform_alignment > 0 then
    ((aligned_size + min_uniform_alignment - 1) % U64_MOD) &&&
      u64_not (min_uniform_alignment - 1)
  else
    aligned_size

/-- Masking with `2 ^ 64 - 2 ^ k` (the 64-bit complement of `2 ^ k - 1`)
clears the low `k` bits: for `x < 2 ^ 64` it equals `x / 2 ^ k * 2 ^ k`. -/
theorem and_two_pow_sub_two_pow (x k : Nat) (hx : x < 2 ^ 64) (hk : k ≤ 64) :
    x &&& (2 ^ 64 - 2 ^ k) = x / 2 ^ k * 2 ^ k := by
  have hmask : (2 : Nat) ^ 64 - 2 ^ k = (2 ^ (64 - k) - 1) <<< k := by
    rw [Nat.shiftLeft_eq, Nat.sub_one_mul, ← Nat.pow_add]
    have h64 : 64 - k + k = 64 := by omega
    rw [h64]
  have hrhs : x / 2 ^ k * 2 ^ k = (x >>> k) <<< k := by
    rw [Nat.shiftLeft_eq, Nat.shiftRight_eq_div_pow]
  rw [hmask, hrhs]
  apply Nat.eq_of_testBit_eq
  intro i
  rw [Nat.testBit_land, Nat.testBit_shiftLeft, Nat.testBit_shiftLeft,
    Nat.testBit_two_pow_sub_one, Nat.testBit_shiftRight]
  by_cases hki : k ≤ i
  · have hik : k + (i - k) = i := by omega
    rw [hik]
    by_cases hi : i < 64
    · have h1 : i - k < 64 - k := by omega
      simp [hki, h1]
    · have hx' : x < 2 ^ i :=
        lt_of_lt_of_le hx (Nat.pow_le_pow_right (by norm_num) (by omega))
      have htb : x.testBit i = false := Nat.testBit_eq_false_of_lt hx'
      simp [htb]
  · simp [hki]

/-- For a power-of-two alignment `2 ^ k` and no `u64` overflow,
`pad_uniform_buffer_size` computes `(size + a - 1) / a * a`,
i.e. `ceil(size / a) * a`. -/
theorem pad_uniform_buffer_size_pow2 (size k : Nat) (hk : k ≤ 64)
    (hov : size + 2 ^ k - 1 < 2 ^ 64) :
    pad_uniform_buffer_size size (2 ^ k) =
      (size + 2 ^ k - 1) / 2 ^ k * 2 ^ k := by
  have hpos : 0 < 2 ^ k := Nat.two_pow_pos k
  have hle : (2 : Nat) ^ k ≤ 2 ^ 64 := Nat.pow_le_pow_right (by norm_num) hk
  unfold pad_uniform_buffer_size u64_not U64_MOD
  rw [if_pos hpos]
  have h1 : (2 ^ 64 - 1) - (2 ^ k - 1) = 2 ^ 64 - 2 ^ k := by omega
  have h2 : (size + 2 ^ k - 1) % 2 ^ 64 = size + 2 ^ k - 1 := Nat.mod_eq_of_lt hov
  simp only [h2, h1]
  exact and_two_pow_sub_two_pow _ _ hov hk

/-- C3 (amended): for every `size` and every power-of-two alignment
`a = 2 ^ k` (the only form Vulkan permits for
`minUniformBufferOffsetAlignment`), provided `size + a - 1` does not
overflow `u64`, `pad_uniform_buffer_size size a` equals
`(size + a - 1) / a * a = ceil(size / a) * a`; consequently the result is
`≥ size`, is a multiple of `a`, and the function is idempotent.  (The claim
as stated, for every alignment `a > 0`, is refuted by
`pad_not_ceil_for_nonpow2_alignment` below.) -/
theorem pad_uniform_buffer_size_spec (size k : Nat) (hk : k ≤ 64)
    (hov : size + 2 ^ k - 1 < 2 ^ 64) :
    pad_uniform_buffer_size size (2 ^ k) =
        (size + 2 ^ k - 1) / 2 ^ k * 2 ^ k ∧
      size ≤ pad_uniform_buffer_size size (2 ^ k) ∧
      pad_uniform_buffer_size size (2 ^ k) % 2 ^ k = 0 ∧
      pad_uniform_buffer_size (pad_uniform_buffer_size size (2 ^ k)) (2 ^ k) =
        pad_uniform_buffer_size size (2 ^ k) := by
  have hpos : 0 < 2 ^ k := Nat.two_pow_pos k
  have hpad := pad_uniform_buffer_size_pow2 size k hk hov
  refine ⟨hpad, ?_, ?_, ?_⟩
  · -- result ≥ size
    rw [hpad]
    have hm : (size + 2 ^ k - 1) / 2 ^ k * 2 ^ k + (size + 2 ^ k - 1) % 2 ^ k =
        size + 2 ^ k - 1 := by
      rw [Nat.mul_comm]; exact Nat.div_add_mod _ _
    have hr : (size + 2 ^ k - 1) % 2 ^ k < 2 ^ k := Nat.mod_lt _ hpos
    generalize hqa : (size + 2 ^ k - 1) / 2 ^ k * 2 ^ k = m at hm ⊢
    omega
  · rw [hpad]
    exact Nat.mul_mod_left _ _
  · -- idempotence
    set q := (size + 2 ^ k - 1) / 2 ^ k with hq
    have hlt : q * 2 ^ k ≤ size + 2 ^ k - 1 := by
      rw [hq]; exact Nat.div_mul_le_self _ _
    have hlt' : q * 2 ^ k < 2 ^ 64 := lt_of_le_of_lt hlt hov
    -- a multiple of `2 ^ k` below `2 ^ 64` stays below once `2 ^ k - 1` is added
    have hq64 : q < 2 ^ (64 - k) := by
      have h2 : (2 : Nat) ^ (64 - k) * 2 ^ k = 2 ^ 64 := by
        rw [← Nat.pow_add]; congr 1; omega
      by_contra hcon
      push_neg at hcon
      have : 2 ^ (64 - k) * 2 ^ k ≤ q * 2 ^ k :=
        Nat.mul_le_mul_right _ hcon
      omega
    have hov2 : q * 2 ^ k + 2 ^ k - 1 < 2 ^ 64 := by
      have h2 : (2 : Nat) ^ (64 - k) * 2 ^ k = 2 ^ 64 := by
        rw [← Nat.pow_add]; congr 1; omega
      have : (q + 1) * 2 ^ k ≤ 2 ^ (64 - k) * 2 ^ k :=
        Nat.mul_le_mul_right _ (by omega)
      have hexp : (q + 1) * 2 ^ k = q * 2 ^ k + 2 ^ k := by ring
      omega
    rw [hpad, pad_uniform_buffer_size_pow2 _ k hk hov2]
    have hdiv : (q * 2 ^ k + 2 ^ k - 1) / 2 ^ k = q := by
      have h1 : q * 2 ^ k + 2 ^ k - 1 = 2 ^ k * q + (2 ^ k - 1) := by
        rw [Nat.mul_comm]; omega
      rw [h1, Nat.mul_add_div hpos, Nat.div_eq_of_lt (by omega), Nat.add_zero]
    rw [hdiv]

/-- Witness for `pad_uniform_buffer_size_spec`, at the spec's own example:
size 176, alignment `256 = 2 ^ 8` gives 256. -/
theorem pad_uniform_buffer_size_spec_witness :
    (8 ≤ 64 ∧ 176 + 2 ^ 8 - 1 < 2 ^ 64) ∧
      pad_uniform_buffer_size 176 (2 ^ 8) =
          (176 + 2 ^ 8 - 1) / 2 ^ 8 * 2 ^ 8 ∧
        176 ≤ pad_uniform_buffer_size 176 (2 ^ 8) ∧
        pad_uniform_buffer_size 176 (2 ^ 8) % 2 ^ 8 = 0 ∧
        pad_uniform_buffer_size (pad_uniform_buffer_size 176 (2 ^ 8)) (2 ^ 8) =
          pad_uniform_buffer_size 176 (2 ^ 8) :=
  ⟨⟨by decide, by decide⟩,
    pad_uniform_buffer_size_spec 176 8 (by decide) (by decide)⟩

/-- C3 counterexample: with the (non-power-of-two) alignment 3 and size 1
the code returns `(1 + 2) & !2 = 1`, not `ceil(1 / 3) * 3 = 3`; the result
is not even a multiple of the alignment.  The bit trick
`(size + a - 1) & !(a - 1)` matches `ceil(size / a) * a` only for
power-of-two `a`. -/
theorem pad_not_ceil_for_nonpow2_alignment :
    pad_uniform_buffer_size 1 3 = 1 ∧
      (1 + 3 - 1) / 3 * 3 = 3 ∧
      pad_uniform_buffer_size 1 3 % 3 ≠ 0 := by
  refine ⟨?_, by norm_num, ?_⟩ <;> decide

/-! ### C4: per-frame uniform offsets (`sample` crate) -/

/-- Byte size of `sample::scene::SceneData`: five `glam::Vec4` fields of
16 bytes each (`size_of::<SceneData>()`). -/
def size_of_SceneData : Nat := 80

/-- Host-side write offset used by `src/sample/src/main.rs` when writing the
per-frame scene data (`map_padded_memory` call):
`frame_index as u64 * pad_uniform_buffer_size(&device, size_of::<SceneData>())`. -/
def scene_uniform_write_offset (min_uniform_alignment frame_index : Nat) : Nat :=
  frame_index * pad_uniform_buffer_size size_of_SceneData min_uniform_alignment

/-- Dynamic descriptor offset passed at bind time by `Scene::draw`
(`src/sample/src/scene.rs`):
`pad_uniform_buffer_size(size_of::<SceneData>() * frame_data.frame_index, alignment)`. -/
def scene_dynamic_offset (min_uniform_alignment frame_index : Nat) : Nat :=
  pad_uniform_buffer_size (size_of_SceneData * frame_index) min_uniform_alignment

/-- C4 (code evaluated at the failing input): with the device alignment 256
and frame index 2 the CPU writes at byte offset `2 * pad(80) = 512` while
the dynamic offset bound for the GPU is `pad(80 * 2) = 256` — the two
offsets the claim (and the spec invariant `frameIndex * stride`) require to
be equal differ, because `Scene::draw` pads `structSize * frameIndex`
instead of multiplying the padded stride by `frameIndex`. -/
theorem scene_offsets_disagree_at_frame_two :
    scene_uniform_write_offset 256 2 = 512 ∧
      scene_dynamic_offset 256 2 = 256 ∧
      scene_uniform_write_offset 256 2 ≠ scene_dynamic_offset 256 2 := by
  refine ⟨?_, ?_, ?_⟩ <;> decide

/-! ### C7: swapchain image count (`VSwapchain::swapchain_create_info`) -/

/-- Image count requested by `VSwapchain::swapchain_create_info`
(`src/vulkan_renderer/src/swapchain.rs`):

```rust
let mut desired_image_count = min_image_count + 1;
if max_image_count > 0 && desired_image_count > max_image_count {
    desired_image_count = max_image_count;
}
```
-/
def desired_image_count (min_image_count max_image_count : Nat) : Nat :=
  let d := min_image_count + 1
  if max_image_count > 0 ∧ d > max_image_count then max_image_count else d

/-- C7: the requested swapchain image count is `minSupported + 1` clamped to
`maxSupported` when the maximum is non-zero (bounded), and unclamped when the
maximum is zero (unbounded). -/
theorem desired_image_count_spec (min_image_count max_image_count : Nat) :
    desired_image_count min_image_count max_image_count =
      if max_image_count = 0 then min_image_count + 1
      else min (min_image_count + 1) max_image_count := by
  rw [desired_image_count]
  split_ifs <;> omega

/-! ### C10: `VQueues::new` (`src/vulkan_renderer/src/queue_family.rs`) -/

/-- `u32::MAX`, the sentinel `VQueueFamilyIndices::default()` uses for "no
such queue family". -/
def U32_MAX : Nat := 2 ^ 32 - 1

/-- The null queue handle (`Queue::default()` is the zero handle). -/
def NULL_QUEUE : Nat := 0

structure VQueueFamilyIndices where
  compute : Nat
  graphics : Nat
  present : Nat

structure VQueues where
  compute : Nat
  graphics : Nat
  present : Nat
deriving DecidableEq

/-- `VQueues::new(device, queue_family_indices)`; `get_device_queue`
abstracts `device.get_device_queue(family, index)`:

```rust
let mut queues = Self::default();
if queue_family_indices.compute != u32::MAX {
    queues.compute = device.get_device_queue(queue_family_indices.compute, 0);
}
queues.graphics = device.get_device_queue(queue_family_indices.graphics, 0);
if queue_family_indices.graphics == queue_family_indices.present {
    queues.present = queues.graphics;
} else {
    queues.present = device.get_device_queue(queue_family_indices.present, 0);
}
queues
```
-/
def VQueues.new (get_device_queue : Nat → Nat → Nat)
    (queue_family_indices : VQueueFamilyIndices) : VQueues :=
  let queues : VQueues := ⟨NULL_QUEUE, NULL_QUEUE, NULL_QUEUE⟩
  let queues :=
    if queue_family_indices.compute ≠ U32_MAX then
      { queues with compute := get_device_queue queue_family_indices.compute 0 }
    else
      queues
  let queues := { queues with graphics := get_device_queue queue_family_indices.graphics 0 }
  let queues :=
    if queue_family_indices.graphics = queue_family_indices.present then
      { queues with present := queues.graphics }
    else
      { queues with present := get_device_queue queue_family_indices.present 0 }
  queues

/-- C10: a compute queue is requested only when the compute family index is
not the `u32::MAX` sentinel (otherwise it stays the null default handle),
and when graphics and present families coincide the present queue is the
graphics queue handle itself (no second lookup for the present class). -/
theorem VQueues_new_spec (get_device_queue : Nat → Nat → Nat)
    (i : VQueueFamilyIndices) :
    (i.compute = U32_MAX → (VQueues.new get_device_queue i).compute = NULL_QUEUE) ∧
      (i.compute ≠ U32_MAX →
        (VQueues.new get_device_queue i).compute = get_device_queue i.compute 0) ∧
      (VQueues.new get_device_queue i).graphics = get_device_queue i.graphics 0 ∧
      (i.graphics = i.present →
        (VQueues.new get_device_queue i).present =
          (VQueues.new get_device_queue i).graphics) ∧
      (i.graphics ≠ i.present →
        (VQueues.new get_device_queue i).present = get_device_queue i.present 0) := by
  refine ⟨fun h => ?_, fun h => ?_, ?_, fun h => ?_, fun h => ?_⟩
  · simp only [VQueues.new, h, ne_eq, not_true_eq_false, if_false]
    split <;> rfl
  · simp only [VQueues.new, h, ne_eq, not_false_eq_true, if_true]
    split <;> rfl
  · simp only [VQueues.new]
    split <;> split <;> rfl
  · simp only [VQueues.new, h, if_pos]
  · simp only [VQueues.new, if_neg h]

/-- Witness for `VQueues_new_spec`: a device whose only queue families are
graphics = present = 2 and no compute family (`u32::MAX`). -/
theorem VQueues_new_spec_witness :
    (VQueues.new (fun f q => 100 * f + q + 1) ⟨U32_MAX, 2, 2⟩).compute = NULL_QUEUE ∧
      (VQueues.new (fun f q => 100 * f + q + 1) ⟨U32_MAX, 2, 2⟩).present =
        (VQueues.new (fun f q => 100 * f + q + 1) ⟨U32_MAX, 2, 2⟩).graphics :=
  ⟨(VQueues_new_spec (fun f q => 100 * f + q + 1) ⟨U32_MAX, 2, 2⟩).1 rfl,
    (VQueues_new_spec (fun f q => 100 * f + q + 1) ⟨U32_MAX, 2, 2⟩).2.2.2.1 rfl⟩

/-! ### C8: blocking waits and their timeouts -/

/-- `u64::MAX`.  Per the Vulkan specification, passing `u64::MAX` as a
timeout to `vkAcquireNextImageKHR` / `vkWaitForFences` means "wait
indefinitely". -/
def U64_MAX : Nat := 2 ^ 64 - 1

/-- Timeout the frame loop passes to `wait_for_fences`
(`src/sample/src/main.rs`): `1_000_000_000` nanoseconds. -/
def frame_fence_wait_timeout_nanos : Nat := 1000000000

/-- Timeout `VSwapchain::acquire_next_image` passes to
`acquire_next_image` (`src/vulkan_renderer/src/swapchain.rs` line 125):
`u64::MAX`.  The method has no caller-supplied timeout parameter. -/
def acquire_next_image_timeout_nanos : Nat := U64_MAX

/-- The blocking waits of the core: the frame loop's fence wait (main.rs),
the swapchain acquire (swapchain.rs), and the staged-upload path's
`queue_wait_idle` (`VBuffer::copy_buffer`, buffer.rs). -/
inductive BlockingWait where
  | frameFenceWait
  | swapchainAcquireWait
  | uploadQueueIdleWait
deriving DecidableEq

/-- The timeout each blocking wait passes to the driver; `none` means the
call (`vkQueueWaitIdle`) has no timeout parameter at all. -/
def blocking_wait_timeout : BlockingWait → Option Nat
  | .frameFenceWait => some frame_fence_wait_timeout_nanos
  | .swapchainAcquireWait => some acquire_next_image_timeout_nanos
  | .uploadQueueIdleWait => none

/-- A wait is bounded when it passes a finite timeout; the `u64::MAX`
sentinel means "wait indefinitely" and a missing timeout parameter is
unbounded as well. -/
def bounded_wait : Option Nat → Bool
  | some t => decide (t < U64_MAX)
  | none => false

/-- The frame loop wraps the fence wait in `.expect(...)`: any error result
(timeout included) aborts the process; `none` models the abort. -/
def frame_loop_fence_wait (res : Except Nat Unit) : Option Unit :=
  match res with
  | .ok _ => some ()
  | .error _ => none

/-- C8 counterexample: not every blocking wait in the core is bounded — the
swapchain acquire passes the `u64::MAX` infinite-wait sentinel (and has no
caller-supplied timeout parameter at all). -/
theorem not_every_wait_bounded :
    ¬(∀ w, bounded_wait (blocking_wait_timeout w) = true) := by
  intro h
  have hc := h BlockingWait.swapchainAcquireWait
  rw [blocking_wait_timeout] at hc
  simp [bounded_wait, acquire_next_image_timeout_nanos] at hc

/-- C8 (amended): the frame loop's fence wait is bounded at 1 second and any
error outcome of it (timeout included) is fatal; but the swapchain acquire
passes the `u64::MAX` infinite-wait sentinel, and the staged-upload path
blocks on `queue_wait_idle`, which has no timeout. -/
theorem blocking_wait_timeouts :
    blocking_wait_timeout BlockingWait.frameFenceWait = some 1000000000 ∧
      bounded_wait (blocking_wait_timeout BlockingWait.frameFenceWait) = true ∧
      (∀ e, frame_loop_fence_wait (Except.error e) = none) ∧
      blocking_wait_timeout BlockingWait.swapchainAcquireWait = some U64_MAX ∧
      bounded_wait (blocking_wait_timeout BlockingWait.swapchainAcquireWait) = false ∧
      blocking_wait_timeout BlockingWait.uploadQueueIdleWait = none := by
  refine ⟨rfl, ?_, fun e => rfl, rfl, ?_, rfl⟩ <;>
    simp [bounded_wait, blocking_wait_timeout, frame_fence_wait_timeout_nanos,
      acquire_next_image_timeout_nanos, U64_MAX]

/-! ### C5: memory-type selection (`VBuffer` / `VImage`) -/

/-- The loop condition in `VBuffer::find_memory_type_index`
(`src/vulkan_renderer/src/buffer.rs`):
`mem_type.property_flags & flags == flags && (1 << ind) & memory_type_bits != 0`. -/
def memory_type_matches (flags memory_type_bits ind property_flags : Nat) : Bool :=
  (property_flags &&& flags == flags) && ((1 <<< ind) &&& memory_type_bits != 0)

/-- The enumerate-and-scan loop of `VBuffer::find_memory_type_index`.
A memory type is its `property_flags` bitmask; `none` models the
`panic!("Failed to find a suitable memory type.")` fall-through. -/
def VBuffer_find_memory_type_scan (flags memory_type_bits : Nat) :
    Nat → List Nat → Option Nat
  | _, [] => none
  | ind, property_flags :: rest =>
    if memory_type_matches flags memory_type_bits ind property_flags then some ind
    else VBuffer_find_memory_type_scan flags memory_type_bits (ind + 1) rest

/-- `VBuffer::find_memory_type_index(memory_requirements, memory_properties, flags)`. -/
def VBuffer_find_memory_type_index (memory_types : List Nat)
    (memory_type_bits flags : Nat) : Option Nat :=
  VBuffer_find_memory_type_scan flags memory_type_bits 0 memory_types

/-- The loop condition in `VImage::find_memory_type_index`
(`src/vulkan_renderer/src/image.rs`), textually the same test. -/
def image_memory_type_matches (flags memory_type_bits ind property_flags : Nat) : Bool :=
  (property_flags &&& flags == flags) && ((1 <<< ind) &&& memory_type_bits != 0)

/-- The enumerate-and-scan loop of `VImage::find_memory_type_index`. -/
def VImage_find_memory_type_scan (flags memory_type_bits : Nat) :
    Nat → List Nat → Option Nat
  | _, [] => none
  | ind, property_flags :: rest =>
    if image_memory_type_matches flags memory_type_bits ind property_flags then some ind
    else VImage_find_memory_type_scan flags memory_type_bits (ind + 1) rest

/-- `VImage::find_memory_type_index(memory_requirements, memory_properties, flags)`. -/
def VImage_find_memory_type_index (memory_types : List Nat)
    (memory_type_bits flags : Nat) : Option Nat :=
  VImage_find_memory_type_scan flags memory_type_bits 0 memory_types

/-- Index `i` names a usable memory type: bit `i` of the resource's
`memoryTypeBits` mask is set, and the type's property flags are a superset
of the requested flags (every requested bit is present). -/
def MemoryTypeSuitable (memory_types : List Nat) (memory_type_bits flags i : Nat) : Prop :=
  memory_type_bits.testBit i = true ∧
    ∀ j, flags.testBit j = true → (memory_types.getD i 0).testBit j = true

/-- `pf & flags == flags` says exactly that `pf`'s bits are a superset of
`flags`'s bits. -/
theorem and_eq_iff_superset (property_flags flags : Nat) :
    (property_flags &&& flags == flags) = true ↔
      ∀ j, flags.testBit j = true → property_flags.testBit j = true := by
  rw [beq_iff_eq]
  constructor
  · intro h j hj
    have hb := congrArg (fun n => n.testBit j) h
    simp only [Nat.testBit_land, hj, Bool.and_true] at hb
    exact hb
  · intro h
    apply Nat.eq_of_testBit_eq
    intro j
    rw [Nat.testBit_land]
    cases hfj : flags.testBit j
    · simp
    · simp [h j hfj]

/-- `(1 << i) & mask != 0` says exactly that bit `i` of `mask` is set. -/
theorem shift_and_ne_zero_iff_testBit (i mask : Nat) :
    ((1 <<< i) &&& mask != 0) = true ↔ mask.testBit i = true := by
  have h1 : (1 <<< i) = 2 ^ i := by rw [Nat.shiftLeft_eq, Nat.one_mul]
  rw [h1, Nat.land_comm, Nat.and_two_pow]
  cases h : mask.testBit i <;> simp [h, (Nat.two_pow_pos i).ne']

/-- The loop condition decides `MemoryTypeSuitable` for the scanned entry. -/
theorem memory_type_matches_iff (memory_types : List Nat)
    (flags memory_type_bits i : Nat) :
    memory_type_matches flags memory_type_bits i (memory_types.getD i 0) = true ↔
      MemoryTypeSuitable memory_types memory_type_bits flags i := by
  rw [memory_type_matches, Bool.and_eq_true, and_eq_iff_superset,
    shift_and_ne_zero_iff_testBit, MemoryTypeSuitable]
  exact and_comm

/-- What a successful scan returns: the first qualifying index at or after
`start`. -/
theorem scan_some_spec (flags memory_type_bits : Nat) (l : List Nat) :
    ∀ (start i : Nat),
      VBuffer_find_memory_type_scan flags memory_type_bits start l = some i →
      start ≤ i ∧ i - start < l.length ∧
        memory_type_matches flags memory_type_bits i (l.getD (i - start) 0) = true ∧
        ∀ j, start ≤ j → j < i →
          memory_type_matches flags memory_type_bits j (l.getD (j - start) 0) = false := by
  induction l with
  | nil =>
    intro start i h
    simp [VBuffer_find_memory_type_scan] at h
  | cons pf rest ih =>
    intro start i h
    rw [VBuffer_find_memory_type_scan] at h
    by_cases hc : memory_type_matches flags memory_type_bits start pf = true
    · rw [if_pos hc] at h
      obtain rfl : start = i := Option.some.inj h
      refine ⟨Nat.le_refl _, by simp, ?_, ?_⟩
      · simpa using hc
      · intro j hj hji; omega
    · rw [if_neg hc] at h
      obtain ⟨h1, h2, h3, h4⟩ := ih (start + 1) i h
      refine ⟨by omega, by simp; omega, ?_, ?_⟩
      · have hi : i - start = (i - (start + 1)) + 1 := by omega
        rw [hi, List.getD_cons_succ]
        exact h3
      · intro j hj hji
        rcases Nat.eq_or_lt_of_le hj with hja | hjb
        · have hz : j - start = 0 := by omega
          rw [hz, List.getD_cons_zero, ← hja]
          exact Bool.not_eq_true _ ▸ eq_false_of_ne_true hc
        · have hs : j - start = (j - (start + 1)) + 1 := by omega
          rw [hs, List.getD_cons_succ]
          exact h4 j (by omega) hji

/-- The scan falls through (panics) exactly when no index qualifies. -/
theorem scan_none_spec (flags memory_type_bits : Nat) (l : List Nat) :
    ∀ (start : Nat),
      VBuffer_find_memory_type_scan flags memory_type_bits start l = none ↔
        ∀ j, start ≤ j → j - start < l.length →
          memory_type_matches flags memory_type_bits j (l.getD (j - start) 0) = false := by
  induction l with
  | nil =>
    intro start
    simp [VBuffer_find_memory_type_scan]
  | cons pf rest ih =>
    intro start
    rw [VBuffer_find_memory_type_scan]
    by_cases hc : memory_type_matches flags memory_type_bits start pf = true
    · rw [if_pos hc]
      constructor
      · intro h; cases h
      · intro h
        have hfalse := h start (Nat.le_refl _) (by simp)
        rw [Nat.sub_self, List.getD_cons_zero, hc] at hfalse
        cases hfalse
    · rw [if_neg hc, ih (start + 1)]
      constructor
      · intro h j hj hjl
        rcases Nat.eq_or_lt_of_le hj with hja | hjb
        · have hz : j - start = 0 := by omega
          rw [hz, List.getD_cons_zero, ← hja]
          exact Bool.not_eq_true _ ▸ eq_false_of_ne_true hc
        · have hs : j - start = (j - (start + 1)) + 1 := by omega
          rw [hs, List.getD_cons_succ]
          refine h j (by omega) ?_
          simp at hjl
          omega
      · intro h j hj hjl
        have hs : j - (start + 1) = (j - start) - 1 := by omega
        have hs' : j - start = (j - (start + 1)) + 1 := by omega
        have := h j (by omega) (by simp; omega)
        rw [hs', List.getD_cons_succ] at this
        exact this

/-- The buffer and image scans are the same algorithm. -/
theorem image_scan_eq_buffer_scan (flags memory_type_bits : Nat) (l : List Nat) :
    ∀ start,
      VImage_find_memory_type_scan flags memory_type_bits start l =
        VBuffer_find_memory_type_scan flags memory_type_bits start l := by
  induction l with
  | nil => intro start; rfl
  | cons pf rest ih =>
    intro start
    rw [VImage_find_memory_type_scan, VBuffer_find_memory_type_scan, ih]
    rfl

/-- C5: `find_memory_type_index` returns the lowest index whose bit is set
in the `memoryTypeBits` mask and whose property flags contain all requested
flags; when no index qualifies it fails deterministically (`none` models the
panic) instead of picking an incompatible type; and `VImage`'s copy computes
exactly what `VBuffer`'s does. -/
theorem find_memory_type_index_spec (memory_types : List Nat)
    (memory_type_bits flags : Nat) :
    (∀ i, VBuffer_find_memory_type_index memory_types memory_type_bits flags = some i →
        i < memory_types.length ∧
          MemoryTypeSuitable memory_types memory_type_bits flags i ∧
          ∀ j, j < i → ¬MemoryTypeSuitable memory_types memory_type_bits flags j) ∧
      (VBuffer_find_memory_type_index memory_types memory_type_bits flags = none ↔
        ∀ i, i < memory_types.length →
          ¬MemoryTypeSuitable memory_types memory_type_bits flags i) ∧
      VImage_find_memory_type_index memory_types memory_type_bits flags =
        VBuffer_find_memory_type_index memory_types memory_type_bits flags := by
  refine ⟨?_, ?_, ?_⟩
  · intro i h
    obtain ⟨h1, h2, h3, h4⟩ := scan_some_spec flags memory_type_bits memory_types 0 i h
    rw [Nat.sub_zero] at h3
    refine ⟨by omega, (memory_type_matches_iff ..).mp h3, ?_⟩
    intro j hj hsuit
    have hf := h4 j (Nat.zero_le _) hj
    rw [Nat.sub_zero] at hf
    rw [(memory_type_matches_iff ..).mpr hsuit] at hf
    cases hf
  · rw [VBuffer_find_memory_type_index, scan_none_spec]
    constructor
    · intro h i hi hsuit
      have hf := h i (Nat.zero_le _) (by omega)
      rw [Nat.sub_zero, (memory_type_matches_iff ..).mpr hsuit] at hf
      cases hf
    · intro h j _ hjl
      rw [Nat.sub_zero] at hjl ⊢
      cases hm : memory_type_matches flags memory_type_bits j (memory_types.getD j 0)
      · rfl
      · exact absurd ((memory_type_matches_iff ..).mp hm) (h j hjl)
  · rw [VImage_find_memory_type_index, VBuffer_find_memory_type_index,
      image_scan_eq_buffer_scan]

/-- Witness for `find_memory_type_index_spec`: table `[1, 6, 7]`
(DEVICE_LOCAL only; HOST_VISIBLE|HOST_COHERENT; all three),
mask `0b110`, requested flags HOST_VISIBLE|HOST_COHERENT = 6: index 1 is
selected (index 0 lacks the flags). -/
theorem find_memory_type_index_spec_witness :
    VBuffer_find_memory_type_index [1, 6, 7] 6 6 = some 1 ∧
      (1 < 3 ∧ MemoryTypeSuitable [1, 6, 7] 6 6 1 ∧
        ∀ j, j < 1 → ¬MemoryTypeSuitable [1, 6, 7] 6 6 j) ∧
      VImage_find_memory_type_index [1, 6, 7] 6 6 =
        VBuffer_find_memory_type_index [1, 6, 7] 6 6 :=
  ⟨rfl,
    by
      have hl : ([1, 6, 7] : List Nat).length = 3 := rfl
      exact hl ▸ (find_memory_type_index_spec [1, 6, 7] 6 6).1 1 rfl,
    (find_memory_type_index_spec [1, 6, 7] 6 6).2.2⟩

/-! ### C6: submit and present wiring (`main.rs` + `VDevice::create_queue_submit_info`) -/

/-- `ash::vk::SubmitInfo` as filled in by `VDevice::create_queue_submit_info`
(`src/vulkan_renderer/src/device.rs`): the count fields and the pointed-to
arrays, modelled as lists of handles. -/
structure SubmitInfo where
  command_buffer_count : Nat
  command_buffers : List Nat
  wait_semaphore_count : Nat
  wait_semaphores : List Nat
  signal_semaphore_count : Nat
  signal_semaphores : List Nat
  wait_dst_stage_mask : List Nat
deriving DecidableEq

/-- `VDevice::create_queue_submit_info(command_buffers, wait_semaphores,
dst_semaphores, pipeline_stage_flags)`. -/
def create_queue_submit_info (command_buffers wait_semaphores dst_semaphores
    pipeline_stage_flags : List Nat) : SubmitInfo :=
  { command_buffer_count := command_buffers.length
    command_buffers := command_buffers
    wait_semaphore_count := wait_semaphores.length
    wait_semaphores := wait_semaphores
    signal_semaphore_count := dst_semaphores.length
    signal_semaphores := dst_semaphores
    wait_dst_stage_mask := pipeline_stage_flags }

/-- `VK_PIPELINE_STAGE_COLOR_ATTACHMENT_OUTPUT_BIT` (0x400). -/
def COLOR_ATTACHMENT_OUTPUT : Nat := 1024

/-- The per-slot handles of `sample::frame_data::FrameData` that the frame
loop wires into submit and present. -/
structure FrameData where
  fence : Nat
  present_semaphore : Nat
  render_semaphore : Nat
  command_buffer : Nat

/-- The submit info the frame loop builds (`src/sample/src/main.rs`):
`create_queue_submit_info(&[cb], &[present_semaphore], &[render_semaphore],
&[COLOR_ATTACHMENT_OUTPUT])`. -/
def frame_submit_info (fd : FrameData) : SubmitInfo :=
  create_queue_submit_info [fd.command_buffer] [fd.present_semaphore]
    [fd.render_semaphore] [COLOR_ATTACHMENT_OUTPUT]

/-- The fence handed to `queue_submit` in the frame loop: the slot's fence. -/
def frame_submit_fence (fd : FrameData) : Nat := fd.fence

/-- The wait-semaphore list of the frame loop's present call
(`PresentInfoKHR.p_wait_semaphores = &[render_semaphore]`). -/
def frame_present_wait_semaphores (fd : FrameData) : List Nat :=
  [fd.render_semaphore]

/-- C6: every frame's submit waits on the slot's present-semaphore at the
color-attachment-output stage, signals the slot's render-semaphore, submits
exactly the slot's command buffer, and signals the slot's fence; the present
then waits on the render-semaphore and on no other semaphore. -/
theorem frame_submit_present_wiring (fd : FrameData) :
    (frame_submit_info fd).wait_semaphores = [fd.present_semaphore] ∧
      (frame_submit_info fd).wait_semaphore_count = 1 ∧
      (frame_submit_info fd).wait_dst_stage_mask = [COLOR_ATTACHMENT_OUTPUT] ∧
      (frame_submit_info fd).signal_semaphores = [fd.render_semaphore] ∧
      (frame_submit_info fd).signal_semaphore_count = 1 ∧
      (frame_submit_info fd).command_buffers = [fd.command_buffer] ∧
      (frame_submit_info fd).command_buffer_count = 1 ∧
      frame_submit_fence fd = fd.fence ∧
      frame_present_wait_semaphores fd = [fd.render_semaphore] :=
  ⟨rfl, rfl, rfl, rfl, rfl, rfl, rfl, rfl, rfl⟩

/-! ### C1: staged upload (`VBuffer::new_vertex_buffer` / `new_index_buffer`) -/

/-- `ash::vk::MemoryPropertyFlags::DEVICE_LOCAL`. -/
def DEVICE_LOCAL : Nat := 1

/-- `ash::vk::MemoryPropertyFlags::HOST_VISIBLE`. -/
def HOST_VISIBLE : Nat := 2

/-- `ash::vk::MemoryPropertyFlags::HOST_COHERENT`. -/
def HOST_COHERENT : Nat := 4

/-- `ash::vk::BufferUsageFlags::TRANSFER_SRC`. -/
def TRANSFER_SRC : Nat := 1

/-- `ash::vk::BufferUsageFlags::TRANSFER_DST`. -/
def TRANSFER_DST : Nat := 2

/-- `ash::vk::BufferUsageFlags::INDEX_BUFFER`. -/
def INDEX_BUFFER : Nat := 64

/-- `ash::vk::BufferUsageFlags::VERTEX_BUFFER`. -/
def VERTEX_BUFFER : Nat := 128

/-- `EOperationType` (`src/vulkan_renderer/src/enums.rs`). -/
inductive EOperationType where
  | compute
  | graphics
  | present
deriving DecidableEq

/-- A `VBuffer` together with the contents of its bound device memory:
`bytes` is the memory contents, `usage` and `flags` record the
`BufferUsageFlags` and `MemoryPropertyFlags` it was created with. -/
structure VBufferModel where
  bytes : List UInt8
  usage : Nat
  flags : Nat
deriving DecidableEq

/-- `VBuffer::map_memory`: `copy_nonoverlapping(data.as_ptr(), ptr,
data.len())` writes the `data.len()` elements of `data` into the mapped
memory; `enc` is the fixed-width byte encoding of one element of `T`. -/
def vbuffer_map_memory {α : Type} (enc : α → List UInt8) (data : List α) : List UInt8 :=
  (data.map enc).flatten

/-- `VBuffer::new_mapped(device, data, usage, flags)`: create, bind, and
immediately write `data` through a mapping. -/
def new_mapped {α : Type} (enc : α → List UInt8) (data : List α)
    (usage flags : Nat) : VBufferModel :=
  { bytes := vbuffer_map_memory enc data, usage := usage, flags := flags }

/-- `VBuffer::new_unmapped(device, data, usage, flags)`: create and bind a
buffer of `data.len() * size_of::<T>()` bytes without writing it; `uninit`
is the arbitrary initial contents of the fresh allocation. -/
def new_unmapped (uninit : List UInt8) (usage flags : Nat) : VBufferModel :=
  { bytes := uninit, usage := usage, flags := flags }

/-- `cmd_copy_buffer` with the single region
`BufferCopy { src_offset: 0, dst_offset: 0, size }` recorded by
`VBuffer::copy_buffer`. -/
def cmd_copy_buffer (size : Nat) (src dst : List UInt8) : List UInt8 :=
  src.take size ++ dst.drop size

/-- What `VBuffer::copy_buffer` records and submits around the copy. -/
structure CopyBufferRecord where
  one_time_submit : Bool
  copy_size : Nat
  submitted_to : EOperationType
  waited_idle_on : EOperationType
deriving DecidableEq

/-- `VBuffer::copy_buffer(device, data, src, dst)`: record a one-time-submit
command buffer with one copy of `data.len() * size_of::<T>()` bytes, submit
it to the graphics queue, and block on `queue_wait_idle` of that queue. -/
def copy_buffer {α : Type} (elem_size : Nat) (data : List α)
    (src dst : VBufferModel) : VBufferModel × CopyBufferRecord :=
  let size := data.length * elem_size
  ({ dst with bytes := cmd_copy_buffer size src.bytes dst.bytes },
    { one_time_submit := true
      copy_size := size
      submitted_to := EOperationType.graphics
      waited_idle_on := EOperationType.graphics })

/-- `VBuffer::new_vertex_buffer(device, vertices)`: staging = `new_mapped`
with TRANSFER_SRC and HOST_COHERENT|HOST_VISIBLE, destination =
`new_unmapped` with TRANSFER_DST|VERTEX_BUFFER and DEVICE_LOCAL, then
`copy_buffer`.  Returns (staging, destination, copy record). -/
def new_vertex_buffer {α : Type} (enc : α → List UInt8) (elem_size : Nat)
    (vertices : List α) (uninit : List UInt8) :
    VBufferModel × VBufferModel × CopyBufferRecord :=
  let staging_buffer :=
    new_mapped enc vertices TRANSFER_SRC (HOST_COHERENT ||| HOST_VISIBLE)
  let vertex_buffer :=
    new_unmapped uninit (TRANSFER_DST ||| VERTEX_BUFFER) DEVICE_LOCAL
  let result := copy_buffer elem_size vertices staging_buffer vertex_buffer
  (staging_buffer, result.1, result.2)

/-- `VBuffer::new_index_buffer(device, indices)`: identical staged protocol
with TRANSFER_DST|INDEX_BUFFER as the destination usage. -/
def new_index_buffer {α : Type} (enc : α → List UInt8) (elem_size : Nat)
    (indices : List α) (uninit : List UInt8) :
    VBufferModel × VBufferModel × CopyBufferRecord :=
  let staging_buffer :=
    new_mapped enc indices TRANSFER_SRC (HOST_COHERENT ||| HOST_VISIBLE)
  let index_buffer :=
    new_unmapped uninit (TRANSFER_DST ||| INDEX_BUFFER) DEVICE_LOCAL
  let result := copy_buffer elem_size indices staging_buffer index_buffer
  (staging_buffer, result.1, result.2)

/-- With a fixed element width, the mapped write produces exactly
`data.len() * size_of::<T>()` bytes. -/
theorem vbuffer_map_memory_length {α : Type} (enc : α → List UInt8)
    (elem_size : Nat) (henc : ∀ a, (enc a).length = elem_size)
    (data : List α) :
    (vbuffer_map_memory enc data).length = data.length * elem_size := by
  induction data with
  | nil => simp [vbuffer_map_memory]
  | cons a rest ih =>
    rw [vbuffer_map_memory] at ih ⊢
    rw [List.map_cons, List.flatten_cons, List.length_append, henc a, ih,
      List.length_cons]
    ring

/-- When the copy size equals both the staging contents' length and the
destination allocation's length, the copy replaces the destination bytes
with exactly the staging bytes. -/
theorem staged_copy_exact {α : Type} (enc : α → List UInt8) (elem_size : Nat)
    (henc : ∀ a, (enc a).length = elem_size) (data : List α)
    (uninit : List UInt8) (hlen : uninit.length = data.length * elem_size) :
    cmd_copy_buffer (data.length * elem_size) (vbuffer_map_memory enc data) uninit =
      vbuffer_map_memory enc data := by
  have hsrc := vbuffer_map_memory_length enc elem_size henc data
  have h1 : (vbuffer_map_memory enc data).take (data.length * elem_size) =
      vbuffer_map_memory enc data := by
    rw [← hsrc]
    exact List.take_length _
  have h2 : uninit.drop (data.length * elem_size) = [] := by
    rw [← hlen]
    exact List.drop_length _
  rw [cmd_copy_buffer, h1, h2, List.append_nil]

/-- C1: `new_vertex_buffer` and `new_index_buffer` follow the staged
protocol: the staging buffer is created host-coherent|host-visible with
TRANSFER_SRC usage and holds exactly the bytes of `data`; the destination
is created device-local with TRANSFER_DST|VERTEX_BUFFER (resp. INDEX_BUFFER)
usage; a one-time-submit command buffer copies
`data.len() * size_of::<T>()` bytes, is submitted to the graphics queue, and
the call blocks until that queue is idle; and on return the destination
buffer's bytes equal the source data's bytes exactly. -/
theorem staged_upload_spec {α : Type} (enc : α → List UInt8) (elem_size : Nat)
    (data : List α) (uninit_v uninit_i : List UInt8)
    (henc : ∀ a, (enc a).length = elem_size)
    (hv : uninit_v.length = data.length * elem_size)
    (hi : uninit_i.length = data.length * elem_size) :
    new_vertex_buffer enc elem_size data uninit_v =
        (⟨vbuffer_map_memory enc data, TRANSFER_SRC, HOST_COHERENT ||| HOST_VISIBLE⟩,
          ⟨vbuffer_map_memory enc data, TRANSFER_DST ||| VERTEX_BUFFER, DEVICE_LOCAL⟩,
          ⟨true, data.length * elem_size, EOperationType.graphics,
            EOperationType.graphics⟩) ∧
      new_index_buffer enc elem_size data uninit_i =
        (⟨vbuffer_map_memory enc data, TRANSFER_SRC, HOST_COHERENT ||| HOST_VISIBLE⟩,
          ⟨vbuffer_map_memory enc data, TRANSFER_DST ||| INDEX_BUFFER, DEVICE_LOCAL⟩,
          ⟨true, data.length * elem_size, EOperationType.graphics,
            EOperationType.graphics⟩) := by
  constructor
  · simp only [new_vertex_buffer, new_mapped, new_unmapped, copy_buffer]
    rw [staged_copy_exact enc elem_size henc data uninit_v hv]
  · simp only [new_index_buffer, new_mapped, new_unmapped, copy_buffer]
    rw [staged_copy_exact enc elem_size henc data uninit_i hi]

/-- Witness for `staged_upload_spec`: three one-byte elements `[7, 8, 9]`
uploaded into three-byte destination allocations. -/
theorem staged_upload_spec_witness :
    new_vertex_buffer (fun a : Nat => [UInt8.ofNat a]) 1 [7, 8, 9] [0, 0, 0] =
        (⟨vbuffer_map_memory (fun a : Nat => [UInt8.ofNat a]) [7, 8, 9],
            TRANSFER_SRC, HOST_COHERENT ||| HOST_VISIBLE⟩,
          ⟨vbuffer_map_memory (fun a : Nat => [UInt8.ofNat a]) [7, 8, 9],
            TRANSFER_DST ||| VERTEX_BUFFER, DEVICE_LOCAL⟩,
          ⟨true, [7, 8, 9].length * 1, EOperationType.graphics,
            EOperationType.graphics⟩) ∧
      new_index_buffer (fun a : Nat => [UInt8.ofNat a]) 1 [7, 8, 9] [0, 0, 0] =
        (⟨vbuffer_map_memory (fun a : Nat => [UInt8.ofNat a]) [7, 8, 9],
            TRANSFER_SRC, HOST_COHERENT ||| HOST_VISIBLE⟩,
          ⟨vbuffer_map_memory (fun a : Nat => [UInt8.ofNat a]) [7, 8, 9],
            TRANSFER_DST ||| INDEX_BUFFER, DEVICE_LOCAL⟩,
          ⟨true, [7, 8, 9].length * 1, EOperationType.graphics,
            EOperationType.graphics⟩) :=
  staged_upload_spec (fun a : Nat => [UInt8.ofNat a]) 1 [7, 8, 9] [0, 0, 0]
    [0, 0, 0] (fun _ => rfl) rfl rfl

/-! ### C9: acquire and framebuffer indexing (`VSwapchain`, `VFramebuffers`) -/

/-- The `VSwapchain` fields the acquire/index path touches
(`src/vulkan_renderer/src/swapchain.rs`): handles are modelled as `Nat`. -/
structure VSwapchainModel where
  images : List Nat
  image_views : List Nat
  framebuffers : List Nat
  image_index : Nat

/-- `VSwapchain::create_image_views`: one view per swapchain image
(`images.iter().map(...)`); `view_of` abstracts `create_image_view`. -/
def create_image_views (view_of : Nat → Nat) (images : List Nat) : List Nat :=
  images.map view_of

/-- `VSwapchain::create_framebuffers`: one framebuffer per image view
(`image_views.iter().map(...)`); `framebuffer_of` abstracts
`create_framebuffer` (the shared depth view and render pass are fixed). -/
def create_framebuffers (framebuffer_of : Nat → Nat) (image_views : List Nat) :
    List Nat :=
  image_views.map framebuffer_of

/-- `VSwapchain::new`: store images, one view per image, one framebuffer per
view, and `image_index: 0`. -/
def VSwapchain_new (view_of framebuffer_of : Nat → Nat) (images : List Nat) :
    VSwapchainModel :=
  { images := images
    image_views := create_image_views view_of images
    framebuffers :=
      create_framebuffers framebuffer_of (create_image_views view_of images)
    image_index := 0 }

/-- `VSwapchain::acquire_next_image`: the driver returns `driver_index`
(the Vulkan contract guarantees it is `< images.len()`); the code stores it
unconditionally into `self.image_index`. -/
def acquire_next_image (m : VSwapchainModel) (driver_index : Nat) :
    VSwapchainModel :=
  { m with image_index := driver_index }

/-- `VSwapchain::get_current_framebuffer`:
`self.framebuffers[self.image_index]`; `none` models the index panic. -/
def get_current_framebuffer (m : VSwapchainModel) : Option Nat :=
  m.framebuffers[m.image_index]?

/-- `impl Index for VFramebuffers` (`src/vulkan_renderer/src/framebuffer.rs`):
`&self.framebuffers[index as usize]`; `none` models the index panic.  The
frame loop indexes its framebuffer array with the acquired image index this
way (`framebuffers[image_ind]`). -/
def VFramebuffers_index (framebuffers : List Nat) (index : Nat) : Option Nat :=
  framebuffers[index]?

/-- Acquires never touch the framebuffer (or image) lists. -/
theorem foldl_acquire_framebuffers (acquires : List Nat) :
    ∀ m : VSwapchainModel,
      (acquires.foldl acquire_next_image m).framebuffers = m.framebuffers := by
  induction acquires with
  | nil => intro m; rfl
  | cons d rest ih =>
    intro m
    rw [List.foldl_cons]
    exact ih _

/-- After any sequence of acquires the stored index is the initial one or
one the driver returned. -/
theorem foldl_acquire_image_index (acquires : List Nat) :
    ∀ m : VSwapchainModel,
      (acquires.foldl acquire_next_image m).image_index = m.image_index ∨
        (acquires.foldl acquire_next_image m).image_index ∈ acquires := by
  induction acquires with
  | nil => intro m; exact Or.inl rfl
  | cons d rest ih =>
    intro m
    rw [List.foldl_cons]
    rcases ih (acquire_next_image m d) with h | h
    · rw [h]
      exact Or.inr (List.mem_cons_self _ _)
    · exact Or.inr (List.mem_cons_of_mem _ h)

/-- C9: starting from `VSwapchain::new` on a non-empty image list, after any
sequence of acquires whose driver-returned indices respect the Vulkan
contract (`index < imageCount`) — in particular two acquires with no
intervening present — the stored image index lies in `[0, imageCount)` and
indexing the framebuffer array with it (either through
`get_current_framebuffer` or through `VFramebuffers`' `Index` impl) never
hits the out-of-range panic. -/
theorem acquired_index_in_bounds (view_of framebuffer_of : Nat → Nat)
    (images : List Nat) (acquires : List Nat) (hne : images ≠ [])
    (hdrv : ∀ d ∈ acquires, d < images.length) :
    (acquires.foldl acquire_next_image
        (VSwapchain_new view_of framebuffer_of images)).image_index <
        images.length ∧
      (acquires.foldl acquire_next_image
          (VSwapchain_new view_of framebuffer_of images)).framebuffers.length =
        images.length ∧
      (get_current_framebuffer
          (acquires.foldl acquire_next_image
            (VSwapchain_new view_of framebuffer_of images))).isSome = true ∧
      (VFramebuffers_index
          (acquires.foldl acquire_next_image
            (VSwapchain_new view_of framebuffer_of images)).framebuffers
          (acquires.foldl acquire_next_image
            (VSwapchain_new view_of framebuffer_of images)).image_index).isSome =
        true := by
  have hfb : (acquires.foldl acquire_next_image
      (VSwapchain_new view_of framebuffer_of images)).framebuffers =
      (create_image_views view_of images).map framebuffer_of :=
    foldl_acquire_framebuffers acquires _
  have hfblen : (acquires.foldl acquire_next_image
      (VSwapchain_new view_of framebuffer_of images)).framebuffers.length =
      images.length := by
    rw [hfb, List.length_map, create_image_views, List.length_map]
  have hidx : (acquires.foldl acquire_next_image
      (VSwapchain_new view_of framebuffer_of images)).image_index <
      images.length := by
    rcases foldl_acquire_image_index acquires
        (VSwapchain_new view_of framebuffer_of images) with h | h
    · rw [h]
      show 0 < images.length
      exact List.length_pos.mpr hne
    · exact hdrv _ h
  refine ⟨hidx, hfblen, ?_, ?_⟩
  · rw [get_current_framebuffer, List.getElem?_eq_getElem (by omega)]
    rfl
  · rw [VFramebuffers_index, List.getElem?_eq_getElem (by omega)]
    rfl

/-- Witness for `acquired_index_in_bounds`: two images, two back-to-back
acquires (indices 1 then 1) with no present in between. -/
theorem acquired_index_in_bounds_witness :
    (([10, 11] : List Nat) ≠ [] ∧ ∀ d ∈ ([1, 1] : List Nat), d < 2) ∧
      ([1, 1].foldl acquire_next_image
          (VSwapchain_new (fun v => v + 50) (fun v => v + 100) [10, 11])).image_index <
          ([10, 11] : List Nat).length ∧
        ([1, 1].foldl acquire_next_image
            (VSwapchain_new (fun v => v + 50) (fun v => v + 100) [10, 11])).framebuffers.length =
          ([10, 11] : List Nat).length ∧
        (get_current_framebuffer
            ([1, 1].foldl acquire_next_image
              (VSwapchain_new (fun v => v + 50) (fun v => v + 100) [10, 11]))).isSome = true ∧
        (VFramebuffers_index
            ([1, 1].foldl acquire_next_image
              (VSwapchain_new (fun v => v + 50) (fun v => v + 100) [10, 11])).framebuffers
            ([1, 1].foldl acquire_next_image
              (VSwapchain_new (fun v => v + 50) (fun v => v + 100) [10, 11])).image_index).isSome =
          true :=
  ⟨⟨by decide, by decide⟩,
    acquired_index_in_bounds (fun v => v + 50) (fun v => v + 100) [10, 11] [1, 1]
      (by decide) (by decide)⟩

/-! ### C2: frame-loop slot reuse ordering (`src/sample/src/main.rs`) -/

/-- `NUM_FRAMES` from `src/sample/src/main.rs`. -/
def NUM_FRAMES : Nat := 3

/-- One observable event of the frame loop, tagged with the frame slot
(`frame_count % NUM_FRAMES`) whose per-slot resources it touches:
`writeUniform s` is a CPU write into slot `s`'s region of the shared
N-slot scene uniform buffer, `writeCamera s` a CPU write into slot `s`'s
own camera uniform buffer. -/
inductive FrameEvent where
  | waitFence (slot : Nat)
  | resetFence (slot : Nat)
  | acquireImage (slot : Nat)
  | beginRecord (slot : Nat)
  | writeUniform (slot : Nat)
  | writeCamera (slot : Nat)
  | submit (slot : Nat)
  | present (slot : Nat)
deriving DecidableEq

/-- The straight-line body of one iteration of the event loop in
`src/sample/src/main.rs`, in program order:

* `wait_for_fences` on the slot's fence, then `reset_fences`;
* `acquire_next_image`, signalling the slot's present-semaphore;
* `begin_command_buffer` on the slot's command buffer (recording begins);
* `scene_buffer.map_padded_memory(..)` at offset
  `frame_index * pad(size_of::<SceneData>())` — a write into the current
  slot's scene-uniform region;
* `scene.draw(..)` (main.rs line 279), whose per-model loop
  (`src/sample/src/scene.rs` lines 97-104) performs for each model a
  `camera_buffer.map_memory` write into the slot's camera buffer and a
  `scene_buffer.map_memory` write — which, like `VBuffer::map_memory`
  (`buffer.rs`), maps the buffer from offset 0 and so rewrites slot 0's
  scene-uniform region on every frame.  `main.rs` registers two models of
  an existing mesh, so these writes occur at least once per frame; the
  trace records one occurrence of each;
* `queue_submit`, signalling the slot's fence; `queue_present`. -/
def frameEvents (f : Nat) : List FrameEvent :=
  [FrameEvent.waitFence (f % NUM_FRAMES),
    FrameEvent.resetFence (f % NUM_FRAMES),
    FrameEvent.acquireImage (f % NUM_FRAMES),
    FrameEvent.beginRecord (f % NUM_FRAMES),
    FrameEvent.writeUniform (f % NUM_FRAMES),
    FrameEvent.writeCamera (f % NUM_FRAMES),
    FrameEvent.writeUniform 0,
    FrameEvent.submit (f % NUM_FRAMES),
    FrameEvent.present (f % NUM_FRAMES)]

/-- The event trace of the first `n` iterations of the frame loop. -/
def eventTrace (n : Nat) : List FrameEvent :=
  (List.range n).flatMap frameEvents

theorem eventTrace_succ (n : Nat) :
    eventTrace (n + 1) = eventTrace n ++ frameEvents n := by
  rw [eventTrace, eventTrace, List.range_succ, List.flatMap_append,
    List.flatMap_cons, List.flatMap_nil, List.append_nil]

theorem eventTrace_length (n : Nat) : (eventTrace n).length = 9 * n := by
  induction n with
  | zero => rfl
  | succ m ih =>
    rw [eventTrace_succ, List.length_append, ih,
      show (frameEvents m).length = 9 from rfl]
    omega

/-- Closed form of the trace entry at global position `p = 9 * f + j`. -/
def eventAt (p : Nat) : FrameEvent :=
  if p % 9 = 0 then FrameEvent.waitFence (p / 9 % NUM_FRAMES)
  else if p % 9 = 1 then FrameEvent.resetFence (p / 9 % NUM_FRAMES)
  else if p % 9 = 2 then FrameEvent.acquireImage (p / 9 % NUM_FRAMES)
  else if p % 9 = 3 then FrameEvent.beginRecord (p / 9 % NUM_FRAMES)
  else if p % 9 = 4 then FrameEvent.writeUniform (p / 9 % NUM_FRAMES)
  else if p % 9 = 5 then FrameEvent.writeCamera (p / 9 % NUM_FRAMES)
  else if p % 9 = 6 then FrameEvent.writeUniform 0
  else if p % 9 = 7 then FrameEvent.submit (p / 9 % NUM_FRAMES)
  else FrameEvent.present (p / 9 % NUM_FRAMES)

theorem eventTrace_getElem (n p : Nat) (hp : p < 9 * n) :
    (eventTrace n)[p]? = some (eventAt p) := by
  induction n with
  | zero => omega
  | succ m ih =>
    rw [eventTrace_succ]
    by_cases hlt : p < 9 * m
    · rw [List.getElem?_append_left (by rw [eventTrace_length]; exact hlt)]
      exact ih hlt
    · have hlen : (eventTrace m).length = 9 * m := eventTrace_length m
      rw [List.getElem?_append_right (by rw [hlen]; omega), hlen]
      obtain ⟨j, hj9, rfl⟩ : ∃ j, j < 9 ∧ p = 9 * m + j :=
        ⟨p - 9 * m, by omega, by omega⟩
      rw [Nat.add_sub_cancel_left]
      have hmod : (9 * m + j) % 9 = j := by omega
      have hdiv : (9 * m + j) / 9 = m := by omega
      interval_cases j <;> simp [frameEvents, eventAt, hmod, hdiv]

/-- The parts of the per-slot protocol the loop does establish: for every
frame `f ≥ 3`, the iteration's events occur in the order wait-fence,
reset-fence (immediately after the wait, before acquire), acquire,
begin-record; the fence waited on was last signalled by the `queue_submit`
of frame `f − 3` on the same slot, which precedes this frame's wait; and
between that submit and this wait the slot's command buffer is never
recorded, its camera buffer is never written, and — for the slots other
than slot 0 — its scene-uniform region is never written.  (Slot 0's region
is rewritten every frame by `Scene::draw`; see
`frame_slot_uniform_reuse_violation`.) -/
theorem frame_slot_wait_order (n f : Nat) (hf : f < n) (h3 : 3 ≤ f) :
    (eventTrace n)[9 * f]? = some (FrameEvent.waitFence (f % NUM_FRAMES)) ∧
      (eventTrace n)[9 * f + 1]? = some (FrameEvent.resetFence (f % NUM_FRAMES)) ∧
      (eventTrace n)[9 * f + 2]? = some (FrameEvent.acquireImage (f % NUM_FRAMES)) ∧
      (eventTrace n)[9 * f + 3]? = some (FrameEvent.beginRecord (f % NUM_FRAMES)) ∧
      (eventTrace n)[9 * (f - 3) + 7]? = some (FrameEvent.submit (f % NUM_FRAMES)) ∧
      9 * (f - 3) + 7 < 9 * f ∧
      ∀ p, 9 * (f - 3) + 7 < p → p < 9 * f →
        (eventTrace n)[p]? ≠ some (FrameEvent.beginRecord (f % NUM_FRAMES)) ∧
          (eventTrace n)[p]? ≠ some (FrameEvent.writeCamera (f % NUM_FRAMES)) ∧
          (f % NUM_FRAMES ≠ 0 →
            (eventTrace n)[p]? ≠ some (FrameEvent.writeUniform (f % NUM_FRAMES))) := by
  have hN : NUM_FRAMES = 3 := rfl
  refine ⟨?_, ?_, ?_, ?_, ?_, by omega, ?_⟩
  · rw [eventTrace_getElem n _ (by omega)]
    have hmod : (9 * f) % 9 = 0 := by omega
    have hdiv : (9 * f) / 9 = f := by omega
    simp [eventAt, hmod, hdiv]
  · rw [eventTrace_getElem n _ (by omega)]
    have hmod : (9 * f + 1) % 9 = 1 := by omega
    have hdiv : (9 * f + 1) / 9 = f := by omega
    simp [eventAt, hmod, hdiv]
  · rw [eventTrace_getElem n _ (by omega)]
    have hmod : (9 * f + 2) % 9 = 2 := by omega
    have hdiv : (9 * f + 2) / 9 = f := by omega
    simp [eventAt, hmod, hdiv]
  · rw [eventTrace_getElem n _ (by omega)]
    have hmod : (9 * f + 3) % 9 = 3 := by omega
    have hdiv : (9 * f + 3) / 9 = f := by omega
    simp [eventAt, hmod, hdiv]
  · rw [eventTrace_getElem n _ (by omega)]
    have hmod : (9 * (f - 3) + 7) % 9 = 7 := by omega
    have hdiv : (9 * (f - 3) + 7) / 9 = f - 3 := by omega
    have hslot : (f - 3) % NUM_FRAMES = f % NUM_FRAMES := by rw [hN]; omega
    simp [eventAt, hmod, hdiv, hslot]
  · intro p h1 h2
    have hp : p < 9 * n := by omega
    rw [eventTrace_getElem n p hp]
    obtain ⟨g, j, hj9, rfl⟩ : ∃ g j, j < 9 ∧ p = 9 * g + j :=
      ⟨p / 9, p % 9, by omega, by omega⟩
    have hmod : (9 * g + j) % 9 = j := by omega
    have hdiv : (9 * g + j) / 9 = g := by omega
    refine ⟨?_, ?_, ?_⟩
    · intro heq
      interval_cases j <;> simp [eventAt, hmod, hdiv, hN] at heq <;> omega
    · intro heq
      interval_cases j <;> simp [eventAt, hmod, hdiv, hN] at heq <;> omega
    · intro hnz heq
      rw [hN] at hnz
      interval_cases j <;> simp [eventAt, hmod, hdiv, hN] at heq <;> omega

/-- C2 evaluated at the failing input (`NUM_FRAMES = 3`, a 10-frame trace,
frame 3 = the first reuse of slot 0): slot 0's frame-0 `queue_submit` is at
trace position 7 and frame 3's fence wait on slot 0 at position 27, yet at
position 15 — frame 1's `Scene::draw`, strictly between the two — the CPU
rewrites slot 0's scene-uniform region (`scene_buffer.map_memory` maps from
offset 0).  The slot's uniform region is thus reused before its fence wait
returns, contrary to the claim. -/
theorem frame_slot_uniform_reuse_violation :
    (eventTrace 10)[9 * 0 + 7]? = some (FrameEvent.submit (0 % NUM_FRAMES)) ∧
      (eventTrace 10)[9 * 3]? = some (FrameEvent.waitFence (3 % NUM_FRAMES)) ∧
      9 * 0 + 7 < 9 * 1 + 6 ∧
      9 * 1 + 6 < 9 * 3 ∧
      (eventTrace 10)[9 * 1 + 6]? = some (FrameEvent.writeUniform (3 % NUM_FRAMES)) := by
  refine ⟨?_, ?_, ?_, ?_, ?_⟩ <;> decide
